import Mathlib

/-!
Verification development for the px4-agent repository.

The repository ships a web chat client (src/static/script.js) together with
documentation of a mission planning and validation engine (MissionStore,
PositionResolver, ToolDispatcher, DefaultsEngine, ValidationPipeline,
ApprovalWorkflow).  The engine itself is not part of the source tree checked
here, so its operations are modelled from the specification text; the web
client is embedded directly from src/static/script.js.

All machine reals of the original program are modelled as rationals.
-/

namespace PX4

/-! ## Core data model (spec §3) -/

/-- Modelled from the spec: the command types of a MissionItem
(takeoff | waypoint | loiter | survey | rtl). -/
inductive CommandType
  | takeoff
  | waypoint
  | loiter
  | survey
  | rtl
deriving DecidableEq, Repr

/-- Modelled from the spec: detection behaviors
(tag_and_continue | detect_and_monitor). -/
inductive DetectionBehavior
  | tag_and_continue
  | detect_and_monitor
deriving DecidableEq, Repr

/-- Modelled from the spec: distance units accepted by the engine
(meters, feet, kilometers, miles). -/
inductive DistUnit
  | meters
  | feet
  | kilometers
  | miles
deriving DecidableEq, Repr

/-- Modelled from the spec: compass words, mapped north = 0 degrees clockwise. -/
inductive Compass
  | north
  | northeast
  | east
  | southeast
  | south
  | southwest
  | west
  | northwest
deriving DecidableEq, Repr

/-- Modelled from the spec: a heading is either a compass word or degrees. -/
inductive HeadingSpec
  | compass (c : Compass)
  | degrees (d : ℚ)
deriving DecidableEq, Repr

/-- Modelled from the spec: the reference frame of a relative position
(origin | last_waypoint). -/
inductive RefFrame
  | origin
  | last_waypoint
deriving DecidableEq, Repr

/-- Modelled from the spec: a resolved absolute coordinate
(latitude and longitude in decimal degrees). -/
structure Coord where
  latitude : ℚ
  longitude : ℚ
deriving DecidableEq, Repr

/-- Modelled from the spec: a MissionItem, with its resolved position, the
canonical internal units (meters, decimal degrees) and the optional search
fields.  `sequence` is the zero-based position inside the mission. -/
structure MissionItem where
  sequence : Nat
  command_type : CommandType
  latitude : ℚ
  longitude : ℚ
  altitude : ℚ
  radius : Option ℚ
  heading : Option HeadingSpec
  search_target : Option String
  detection_behavior : Option DetectionBehavior
  relative_reference_frame : Option RefFrame
deriving DecidableEq, Repr

/-- Modelled from the spec: a Mission is the ordered sequence of items. -/
abbrev Mission : Type := List MissionItem

/-- Modelled from the spec: the AgentConfig / Settings surface consumed by the
engine.  The configured takeoff point is optional because the spec allows a
relative reference to be unresolvable when no origin is configured. -/
structure AgentConfig where
  max_mission_items : Nat
  auto_add_missing_takeoff : Bool
  auto_add_missing_rtl : Bool
  auto_complete_parameters : Bool
  takeoff_origin : Option Coord
  takeoff_default_heading : HeadingSpec
  takeoff_default_altitude : Option ℚ
  waypoint_default_altitude : Option ℚ
  loiter_default_altitude : Option ℚ
  loiter_default_radius : Option ℚ
  survey_default_altitude : Option ℚ
  survey_default_radius : Option ℚ
  rtl_default_altitude : Option ℚ
deriving DecidableEq, Repr

/-! ## MissionStore (spec §4.2)

Modelled from the spec: `addItem` appends, `deleteItem` removes and renumbers
all subsequent items contiguously, `moveItem` reorders and renumbers the whole
sequence, `updateItem` patches fields in place.  Every mutation enforces the
capacity bound; a failing mutation leaves the mission unchanged. -/

/-- Modelled from the spec: rewrite the sequence numbers of a tail of the
mission, starting at `n`. -/
def renumberFrom (n : Nat) : List MissionItem → List MissionItem
  | [] => []
  | it :: rest => { it with sequence := n } :: renumberFrom (n + 1) rest

/-- Modelled from the spec: renumber a whole mission contiguously from 0. -/
def renumber (m : List MissionItem) : List MissionItem :=
  renumberFrom 0 m

/-- Erase the sequence number of one item (normalise it to 0); used to speak
about the item's payload independently of its position. -/
def stripSeq (it : MissionItem) : MissionItem :=
  { it with sequence := 0 }

/-- Payloads of a mission: every item with its sequence number erased. -/
def strip (m : List MissionItem) : List MissionItem :=
  m.map stripSeq

/-- Modelled from the spec: errors of MissionStore mutations. -/
inductive StoreError
  | capacityError
  | notFound
deriving DecidableEq, Repr

/-- Modelled from the spec: partial fields accepted by updateItem. -/
structure UpdateFields where
  latitude : Option ℚ := none
  longitude : Option ℚ := none
  altitude : Option ℚ := none
  radius : Option ℚ := none
deriving DecidableEq, Repr

/-- Modelled from the spec: patch an item with the provided partial fields;
the sequence number is not touched by an update. -/
def applyUpdate (it : MissionItem) (f : UpdateFields) : MissionItem :=
  { it with
    latitude := f.latitude.getD it.latitude
    longitude := f.longitude.getD it.longitude
    altitude := f.altitude.getD it.altitude
    radius := match f.radius with
      | some r => some r
      | none => it.radius }

/-- Modelled from the spec: addItem(item, atEnd=true); enforces the capacity
bound, else CapacityError with no state change. -/
def addItem (maxItems : Nat) (m : List MissionItem) (it : MissionItem) :
    Except StoreError (List MissionItem) :=
  if m.length + 1 ≤ maxItems then
    .ok (m ++ [{ it with sequence := m.length }])
  else
    .error .capacityError

/-- Modelled from the spec: deleteItem(sequence) removes the item and
renumbers all subsequent items contiguously; unknown sequence is NotFound. -/
def deleteItem (m : List MissionItem) (k : Nat) :
    Except StoreError (List MissionItem) :=
  if k < m.length then
    .ok (m.take k ++ renumberFrom k (m.drop (k + 1)))
  else
    .error .notFound

/-- Modelled from the spec: updateItem(sequence, partialFields); unknown
sequence is NotFound. -/
def updateItem (m : List MissionItem) (k : Nat) (f : UpdateFields) :
    Except StoreError (List MissionItem) :=
  if h : k < m.length then
    .ok (m.set k (applyUpdate (m.get ⟨k, h⟩) f))
  else
    .error .notFound

/-- Modelled from the spec: moveItem(from, to) reorders and renumbers the
whole sequence; an invalid position is NotFound. -/
def moveItem (m : List MissionItem) (f t : Nat) :
    Except StoreError (List MissionItem) :=
  if h : f < m.length ∧ t < m.length then
    .ok (renumber ((m.eraseIdx f).insertIdx t (m.get ⟨f, h.1⟩)))
  else
    .error .notFound

/-- Modelled from the spec: the four MissionStore mutations as one type. -/
inductive StoreOp
  | add (it : MissionItem)
  | update (k : Nat) (f : UpdateFields)
  | del (k : Nat)
  | move (f t : Nat)

/-- Run one store mutation, returning the error when it fails. -/
def runStoreOp (maxItems : Nat) (m : List MissionItem) :
    StoreOp → Except StoreError (List MissionItem)
  | .add it => addItem maxItems m it
  | .update k f => updateItem m k f
  | .del k => deleteItem m k
  | .move f t => moveItem m f t

/-- Modelled from the spec: a failing mutation is aborted atomically, leaving
the mission unchanged. -/
def applyStoreOp (maxItems : Nat) (m : List MissionItem) (op : StoreOp) :
    List MissionItem :=
  match runStoreOp maxItems m op with
  | .ok m2 => m2
  | .error _ => m

/-- Sequence numbers are contiguous 0..n-1: the invariant of spec §3. -/
def SeqContiguous (m : List MissionItem) : Prop :=
  ∀ i : Nat, (h : i < m.length) → (m.get ⟨i, h⟩).sequence = i

instance (m : List MissionItem) : Decidable (SeqContiguous m) :=
  Nat.decidableBallLT m.length fun i h => (m.get ⟨i, h⟩).sequence = i

/-! ## PositionResolver (spec §4.1)

Modelled from the spec: the engine's position-resolution subsystem is not in
the source tree; it is modelled from §4.1.  The transcendental functions of
the standard geodesic and grid projections are modelled by fixed truncated
rational series; the properties verified here do not depend on the numeric
accuracy of those approximations. -/

/-- Modelled from the spec: PositionSpec tagged union
Absolute | Relative | Grid. -/
inductive PositionSpec
  | absolute (lat lon : ℚ)
  | relative (distance : ℚ) (distance_units : DistUnit)
      (heading : HeadingSpec) (reference_frame : RefFrame)
  | grid (g : String)
deriving DecidableEq, Repr

/-- Modelled from the spec: resolution errors (InvalidGrid, NoReferencePoint,
and out-of-range absolute coordinates). -/
inductive ResolutionError
  | invalidCoordinates
  | invalidGrid
  | noReferencePoint
deriving DecidableEq, Repr

/-- Modelled from the spec: convert a distance to the canonical internal unit
(meters). -/
def toMeters (d : ℚ) : DistUnit → ℚ
  | .meters => d
  | .feet => d * (3048 / 10000)
  | .kilometers => d * 1000
  | .miles => d * (1609344 / 1000)

/-- Modelled from the spec: compass words mapped north = 0° clockwise. -/
def compassDegrees : Compass → ℚ
  | .north => 0
  | .northeast => 45
  | .east => 90
  | .southeast => 135
  | .south => 180
  | .southwest => 225
  | .west => 270
  | .northwest => 315

/-- Modelled from the spec: a heading converted to degrees. -/
def headingDegrees : HeadingSpec → ℚ
  | .compass c => compassDegrees c
  | .degrees d => d

/-- Rational approximation of π used by the modelled projections. -/
def piApprox : ℚ := 355 / 113

/-- Normalise an angle in degrees into [0, 360). -/
def normDeg (d : ℚ) : ℚ := d - 360 * (⌊d / 360⌋ : ℚ)

/-- Degrees to (approximate) radians, after normalisation. -/
def degToRad (d : ℚ) : ℚ := normDeg d * piApprox / 180

/-- Truncated sine series (model of the transcendental sine). -/
def sinA (x : ℚ) : ℚ :=
  x - x ^ 3 / 6 + x ^ 5 / 120 - x ^ 7 / 5040

/-- Truncated cosine series (model of the transcendental cosine). -/
def cosA (x : ℚ) : ℚ :=
  1 - x ^ 2 / 2 + x ^ 4 / 24 - x ^ 6 / 720

/-- Meters per degree of latitude, the constant of the modelled projection. -/
def metersPerDegree : ℚ := 111320

/-- Modelled from the spec: forward geodesic displacement from a base point,
using the distance in meters and the heading in degrees (north = 0°,
clockwise). -/
def geodesicForward (base : Coord) (distMeters headingDeg : ℚ) : Coord :=
  let θ := degToRad headingDeg
  let latRad := degToRad base.latitude
  { latitude := base.latitude + distMeters * cosA θ / metersPerDegree
    longitude := base.longitude +
      distMeters * sinA θ / (metersPerDegree * cosA latRad) }

/-- The 20 MGRS latitude band letters (C..X without I and O). -/
def bandLetters : List Char :=
  ['C', 'D', 'E', 'F', 'G', 'H', 'J', 'K', 'L', 'M',
   'N', 'P', 'Q', 'R', 'S', 'T', 'U', 'V', 'W', 'X']

/-- The 24 MGRS column/row letters (A..Z without I and O). -/
def squareLetters : List Char :=
  ['A', 'B', 'C', 'D', 'E', 'F', 'G', 'H', 'J', 'K', 'L', 'M',
   'N', 'P', 'Q', 'R', 'S', 'T', 'U', 'V', 'W', 'X', 'Y', 'Z']

/-- Numeric value of a list of decimal digit characters. -/
def digitsToNat (cs : List Char) : Nat :=
  cs.foldl (fun acc c => acc * 10 + (c.toNat - 48)) 0

/-- Modelled from the spec: a parsed grid reference —
zone, band, 100 km square, easting and northing (in meters). -/
structure GridRef where
  zone : Nat
  bandIdx : Nat
  sqEIdx : Nat
  sqNIdx : Nat
  easting : ℚ
  northing : ℚ
deriving DecidableEq, Repr

/-- Modelled from the spec: parse zone/band/100km-square/easting/northing of
an MGRS-style grid string; any malformed input yields none. -/
def parseGrid (g : String) : Option GridRef :=
  let cs := g.data.map Char.toUpper
  let zds := cs.takeWhile Char.isDigit
  let rest := cs.dropWhile Char.isDigit
  if zds.length = 0 ∨ 2 < zds.length then none
  else
    let zone := digitsToNat zds
    if zone = 0 ∨ 60 < zone then none
    else
      match rest with
      | band :: sqE :: sqN :: tail =>
        match bandLetters.indexOf? band, squareLetters.indexOf? sqE,
            squareLetters.indexOf? sqN with
        | some bi, some ei, some ni =>
          if tail.all Char.isDigit ∧ tail.length % 2 = 0 ∧
              2 ≤ tail.length ∧ tail.length ≤ 10 then
            let half := tail.length / 2
            let scale : ℚ := (10 : ℚ) ^ (5 - half)
            some
              { zone := zone
                bandIdx := bi
                sqEIdx := ei
                sqNIdx := ni
                easting := (digitsToNat (tail.take half) : ℚ) * scale
                northing := (digitsToNat (tail.drop half) : ℚ) * scale }
          else none
        | _, _, _ => none
      | _ => none

/-- Modelled from the spec: the standard grid-to-geographic projection,
abstracted as concrete rational arithmetic on the parsed components. -/
def gridToCoord (r : GridRef) : Coord :=
  let latBase : ℚ := -80 + 8 * (r.bandIdx : ℚ)
  let latitude : ℚ :=
    latBase + ((r.sqNIdx % 20 : Nat) : ℚ) * 100000 / metersPerDegree +
      r.northing / metersPerDegree
  let lonBase : ℚ := 6 * (r.zone : ℚ) - 183
  let longitude : ℚ :=
    lonBase +
      (((r.sqEIdx % 8 : Nat) : ℚ) * 100000 + r.easting - 500000) /
        (metersPerDegree * cosA (degToRad latitude))
  { latitude := latitude, longitude := longitude }

/-- Modelled from the spec (§4.1): resolve(spec, missionSoFar, config) →
coordinate | ResolutionError.  Absolute coordinates are validated and passed
through; a grid string is parsed and projected; a relative spec is displaced
from its base point (origin, or the last resolved item falling back to
origin), and an unresolvable reference yields NoReferencePoint. -/
def resolve (spec : PositionSpec) (missionSoFar : Mission) (cfg : AgentConfig) :
    Except ResolutionError Coord :=
  match spec with
  | .absolute lat lon =>
    if -90 ≤ lat ∧ lat ≤ 90 ∧ -180 ≤ lon ∧ lon ≤ 180 then
      .ok { latitude := lat, longitude := lon }
    else
      .error .invalidCoordinates
  | .grid g =>
    match parseGrid g with
    | some r => .ok (gridToCoord r)
    | none => .error .invalidGrid
  | .relative dist units hd frame =>
    let base? : Option Coord :=
      match frame with
      | .origin => cfg.takeoff_origin
      | .last_waypoint =>
        match missionSoFar.getLast? with
        | some it => some { latitude := it.latitude, longitude := it.longitude }
        | none => cfg.takeoff_origin
    match base? with
    | none => .error .noReferencePoint
    | some base =>
      .ok (geodesicForward base (toMeters dist units) (headingDegrees hd))

/-! ## DefaultsEngine (spec §4.4)

Modelled from the spec: field resolution order is explicit value >
per-type configured default > global fallback constant. -/

/-- Global fallback altitude constant of the modelled DefaultsEngine. -/
def fallbackAltitude : ℚ := 100

/-- Global fallback radius constant of the modelled DefaultsEngine. -/
def fallbackRadius : ℚ := 300

/-- Modelled from the spec: the per-type configured default altitude. -/
def perTypeDefaultAltitude (t : CommandType) (cfg : AgentConfig) : Option ℚ :=
  match t with
  | .takeoff => cfg.takeoff_default_altitude
  | .waypoint => cfg.waypoint_default_altitude
  | .loiter => cfg.loiter_default_altitude
  | .survey => cfg.survey_default_altitude
  | .rtl => cfg.rtl_default_altitude

/-- Modelled from the spec: the per-type configured default radius. -/
def perTypeDefaultRadius (t : CommandType) (cfg : AgentConfig) : Option ℚ :=
  match t with
  | .loiter => cfg.loiter_default_radius
  | .survey => cfg.survey_default_radius
  | _ => none

/-- Modelled from the spec: complete an altitude
(explicit > per-type default > fallback). -/
def completeAltitude (t : CommandType) (provided : Option ℚ)
    (cfg : AgentConfig) : ℚ :=
  match provided with
  | some v => v
  | none => (perTypeDefaultAltitude t cfg).getD fallbackAltitude

/-- Modelled from the spec: complete a radius
(explicit > per-type default > fallback). -/
def completeRadius (t : CommandType) (provided : Option ℚ)
    (cfg : AgentConfig) : ℚ :=
  match provided with
  | some v => v
  | none => (perTypeDefaultRadius t cfg).getD fallbackRadius

/-- Modelled from the spec: an unspecified heading defaults to the configured
takeoff heading. -/
def completeHeading (provided : Option HeadingSpec) (cfg : AgentConfig) :
    HeadingSpec :=
  provided.getD cfg.takeoff_default_heading

/-! ## ValidationPipeline (spec §4.5)

Modelled from the spec: the ordered checks with severities, autofix of the
missing takeoff / RTL, and the command-mode downgrade of fatal checks. -/

/-- Severity of a validation outcome. -/
inductive Severity
  | fatal
  | warning
  | autofix
deriving DecidableEq, Repr

/-- The seven ordered checks of the pipeline. -/
inductive CheckId
  | takeoffPresence
  | takeoffFirst
  | rtlPresence
  | rtlLast
  | numericBounds
  | capacity
  | detectionConsistency
deriving DecidableEq, Repr

/-- One reported validation issue. -/
structure Issue where
  check : CheckId
  severity : Severity
deriving DecidableEq, Repr

/-- Whether the mission contains a takeoff item. -/
def hasTakeoff (m : Mission) : Bool :=
  m.any fun it => it.command_type == CommandType.takeoff

/-- Whether the mission contains an RTL item. -/
def hasRtl (m : Mission) : Bool :=
  m.any fun it => it.command_type == CommandType.rtl

/-- A takeoff occurring after some other item (check 2 violation): some item
precedes an explicit takeoff exactly when the tail contains a takeoff. -/
def takeoffMisplaced (m : Mission) : Bool :=
  (m.drop 1).any fun it => it.command_type == CommandType.takeoff

/-- An RTL occurring before the last item (check 4 violation). -/
def rtlMisplaced (m : Mission) : Bool :=
  m.dropLast.any fun it => it.command_type == CommandType.rtl

/-- Check 5: numeric bounds of one item (altitude > 0; radius > 0 for
loiter/survey; coordinate ranges). -/
def boundsOk (it : MissionItem) : Bool :=
  decide (0 < it.altitude) &&
  (match it.command_type, it.radius with
    | .loiter, some r => decide (0 < r)
    | .loiter, none => false
    | .survey, some r => decide (0 < r)
    | .survey, none => false
    | _, _ => true) &&
  decide (-90 ≤ it.latitude ∧ it.latitude ≤ 90) &&
  decide (-180 ≤ it.longitude ∧ it.longitude ≤ 180)

/-- Check 7: detection_behavior without search_target. -/
def detectionInconsistent (it : MissionItem) : Bool :=
  it.detection_behavior.isSome && it.search_target.isNone

/-- Modelled from the spec: construct a MissionItem from its parts (the
sequence number is assigned by the store). -/
def mkItem (t : CommandType) (c : Coord) (alt : ℚ) (r : Option ℚ)
    (hd : Option HeadingSpec) (st : Option String)
    (db : Option DetectionBehavior) (frame : Option RefFrame) : MissionItem :=
  { sequence := 0
    command_type := t
    latitude := c.latitude
    longitude := c.longitude
    altitude := alt
    radius := r
    heading := hd
    search_target := st
    detection_behavior := db
    relative_reference_frame := frame }

/-- Modelled from the spec: the default takeoff inserted by autofix. -/
def defaultTakeoff (cfg : AgentConfig) : MissionItem :=
  mkItem .takeoff (cfg.takeoff_origin.getD { latitude := 0, longitude := 0 })
    (completeAltitude .takeoff none cfg) none
    (some cfg.takeoff_default_heading) none none none

/-- Modelled from the spec: the default RTL appended by autofix. -/
def defaultRtl (cfg : AgentConfig) : MissionItem :=
  mkItem .rtl (cfg.takeoff_origin.getD { latitude := 0, longitude := 0 })
    (completeAltitude .rtl none cfg) none none none none none

/-- Modelled from the spec (§4.5, checks 1 and 3): insert a default takeoff at
position 0 and/or append a default RTL when they are missing and the
corresponding auto flags are enabled. -/
def applyAutofix (cfg : AgentConfig) (m : Mission) : Mission :=
  let m1 :=
    if hasTakeoff m then m
    else if cfg.auto_add_missing_takeoff then renumber (defaultTakeoff cfg :: m)
    else m
  if hasRtl m1 then m1
  else if cfg.auto_add_missing_rtl then renumber (m1 ++ [defaultRtl cfg])
  else m1

/-- Modelled from the spec (§4.5): the ordered checks of the pipeline,
reported against a given mission. -/
def checkIssues (cfg : AgentConfig) (m : Mission) : List Issue :=
  (if hasTakeoff m then []
   else [⟨.takeoffPresence,
     if cfg.auto_add_missing_takeoff then .autofix else .warning⟩]) ++
  (if takeoffMisplaced m then [⟨.takeoffFirst, .fatal⟩] else []) ++
  (if hasRtl m then []
   else [⟨.rtlPresence,
     if cfg.auto_add_missing_rtl then .autofix else .warning⟩]) ++
  (if rtlMisplaced m then [⟨.rtlLast, .fatal⟩] else []) ++
  (if m.all boundsOk then [] else [⟨.numericBounds, .fatal⟩]) ++
  (if m.length ≤ cfg.max_mission_items then [] else [⟨.capacity, .fatal⟩]) ++
  (if m.any detectionInconsistent then [⟨.detectionConsistency, .warning⟩]
   else [])

/-- Modelled from the spec (§4.5): in command mode (strict = false) fatal
checks are downgraded to warnings. -/
def downgrade (strict : Bool) (i : Issue) : Issue :=
  if strict then i
  else if i.severity == Severity.fatal then { i with severity := .warning }
  else i

/-- Modelled from the spec (§4.5): run the pipeline — apply the autofixes,
then report the remaining issues, downgrading fatals in command mode. -/
def runPipeline (cfg : AgentConfig) (strict : Bool) (m : Mission) :
    Mission × List Issue :=
  let m2 := applyAutofix cfg m
  (m2, (checkIssues cfg m2).map (downgrade strict))

/-! ## ToolDispatcher (spec §4.3, §7)

Modelled from the spec: per call — structural argument validation, position
resolution, default completion, mutation, advisory validation, structured
result.  `show_mission_for_approval` is modelled with the ApprovalWorkflow
below.  A failing call returns its error with the mission unchanged. -/

/-- Fields of a structural argument error. -/
inductive ArgField
  | altitude
  | radius
  | latitude
  | longitude
deriving DecidableEq, Repr

/-- Modelled from the spec (§7): the dispatcher's error taxonomy for mutating
calls. -/
inductive ToolError
  | argumentError (field : ArgField)
  | resolutionError (e : ResolutionError)
  | capacityError
  | notFound
deriving DecidableEq, Repr

/-- Notes returned with a successful call: upsert replacements and advisory
validation issues. -/
inductive Note
  | replacedTakeoff
  | replacedRtl
  | validation (i : Issue)
deriving DecidableEq, Repr

/-- Modelled from the spec: the named mutating operations with their
argument maps. -/
inductive ToolCall
  | add_takeoff (altitude : Option ℚ) (heading : Option HeadingSpec)
  | add_waypoint (altitude : Option ℚ) (position : Option PositionSpec)
      (search_target : Option String) (detection_behavior : Option DetectionBehavior)
  | add_loiter (altitude : Option ℚ) (radius : Option ℚ)
      (position : Option PositionSpec) (search_target : Option String)
      (detection_behavior : Option DetectionBehavior)
  | add_survey (altitude : Option ℚ) (radius : Option ℚ)
      (position : Option PositionSpec) (search_target : Option String)
      (detection_behavior : Option DetectionBehavior)
  | add_rtl (altitude : Option ℚ)
  | update_mission_item (k : Nat) (fields : UpdateFields)
  | delete_mission_item (k : Nat)
  | move_mission_item (f t : Nat)

/-- Structural check: a provided quantity must be strictly positive. -/
def checkPositive (fld : ArgField) : Option ℚ → Option ToolError
  | none => none
  | some v => if 0 < v then none else some (.argumentError fld)

/-- Structural check: a provided latitude must lie in [-90, 90]. -/
def checkLatRange : Option ℚ → Option ToolError
  | none => none
  | some v =>
    if -90 ≤ v ∧ v ≤ 90 then none else some (.argumentError .latitude)

/-- Structural check: a provided longitude must lie in [-180, 180]. -/
def checkLonRange : Option ℚ → Option ToolError
  | none => none
  | some v =>
    if -180 ≤ v ∧ v ≤ 180 then none else some (.argumentError .longitude)

/-- Combine two structural checks, reporting the first failure. -/
def firstErr (a b : Option ToolError) : Option ToolError :=
  match a with
  | some e => some e
  | none => b

/-- Modelled from the spec (§4.3 step 1): structural argument validation
(for example radius > 0, altitude > 0), before any mutation. -/
def validateArgs : ToolCall → Option ToolError
  | .add_takeoff alt _ => checkPositive .altitude alt
  | .add_waypoint alt _ _ _ => checkPositive .altitude alt
  | .add_loiter alt rad _ _ _ =>
    firstErr (checkPositive .altitude alt) (checkPositive .radius rad)
  | .add_survey alt rad _ _ _ =>
    firstErr (checkPositive .altitude alt) (checkPositive .radius rad)
  | .add_rtl alt => checkPositive .altitude alt
  | .update_mission_item _ f =>
    firstErr (checkPositive .altitude f.altitude)
      (firstErr (checkPositive .radius f.radius)
        (firstErr (checkLatRange f.latitude) (checkLonRange f.longitude)))
  | .delete_mission_item _ => none
  | .move_mission_item _ _ => none

/-- The StoreError taxonomy embedded into the dispatcher taxonomy. -/
def storeToTool : StoreError → ToolError
  | .capacityError => .capacityError
  | .notFound => .notFound

/-- Modelled from the spec (§4.3): add_takeoff is an idempotent upsert — a
repeated call replaces the existing single instance (with a note) instead of
duplicating it; otherwise the takeoff is inserted at position 0.  The
capacity bound is enforced on the candidate mission. -/
def upsertTakeoff (maxItems : Nat) (m : Mission) (item : MissionItem) :
    Except ToolError (Mission × List Note) :=
  if hasTakeoff m then
    let cand := renumber (m.map fun j =>
      if j.command_type == CommandType.takeoff then item else j)
    if cand.length ≤ maxItems then .ok (cand, [.replacedTakeoff])
    else .error .capacityError
  else
    let cand := renumber (item :: m)
    if cand.length ≤ maxItems then .ok (cand, [])
    else .error .capacityError

/-- Modelled from the spec (§4.3): add_rtl is an idempotent upsert — a
repeated call replaces the existing single instance (with a note) instead of
duplicating it; otherwise the RTL is appended last. -/
def upsertRtl (maxItems : Nat) (m : Mission) (item : MissionItem) :
    Except ToolError (Mission × List Note) :=
  if hasRtl m then
    let cand := renumber (m.map fun j =>
      if j.command_type == CommandType.rtl then item else j)
    if cand.length ≤ maxItems then .ok (cand, [.replacedRtl])
    else .error .capacityError
  else
    let cand := renumber (m ++ [item])
    if cand.length ≤ maxItems then .ok (cand, [])
    else .error .capacityError

/-- Resolve an optional position spec: an omitted position defaults to the
configured origin (NoReferencePoint when none is configured). -/
def resolveOpt (pos : Option PositionSpec) (m : Mission) (cfg : AgentConfig) :
    Except ResolutionError Coord :=
  match pos with
  | some p => resolve p m cfg
  | none =>
    match cfg.takeoff_origin with
    | some c => .ok c
    | none => .error .noReferencePoint

/-- The reference frame recorded on an item built from a relative spec. -/
def frameOf : Option PositionSpec → Option RefFrame
  | some (.relative _ _ _ fr) => some fr
  | _ => none

/-- Modelled from the spec (§4.3 steps 2-4): resolution, default completion
and mutation of one validated call. -/
def mutateCall (cfg : AgentConfig) (m : Mission) :
    ToolCall → Except ToolError (Mission × List Note)
  | .add_takeoff alt hd =>
    let c := cfg.takeoff_origin.getD { latitude := 0, longitude := 0 }
    let item := mkItem .takeoff c (completeAltitude .takeoff alt cfg) none
      (some (completeHeading hd cfg)) none none none
    upsertTakeoff cfg.max_mission_items m item
  | .add_waypoint alt pos st db =>
    match (resolveOpt pos m cfg).mapError ToolError.resolutionError with
    | .error e => .error e
    | .ok c =>
      let item := mkItem .waypoint c (completeAltitude .waypoint alt cfg)
        none none st db (frameOf pos)
      match (addItem cfg.max_mission_items m item).mapError storeToTool with
      | .error e => .error e
      | .ok m2 => .ok (m2, [])
  | .add_loiter alt rad pos st db =>
    match (resolveOpt pos m cfg).mapError ToolError.resolutionError with
    | .error e => .error e
    | .ok c =>
      let item := mkItem .loiter c (completeAltitude .loiter alt cfg)
        (some (completeRadius .loiter rad cfg)) none st db (frameOf pos)
      match (addItem cfg.max_mission_items m item).mapError storeToTool with
      | .error e => .error e
      | .ok m2 => .ok (m2, [])
  | .add_survey alt rad pos st db =>
    match (resolveOpt pos m cfg).mapError ToolError.resolutionError with
    | .error e => .error e
    | .ok c =>
      let item := mkItem .survey c (completeAltitude .survey alt cfg)
        (some (completeRadius .survey rad cfg)) none st db (frameOf pos)
      match (addItem cfg.max_mission_items m item).mapError storeToTool with
      | .error e => .error e
      | .ok m2 => .ok (m2, [])
  | .add_rtl alt =>
    let c := cfg.takeoff_origin.getD { latitude := 0, longitude := 0 }
    let item := mkItem .rtl c (completeAltitude .rtl alt cfg)
      none none none none none
    upsertRtl cfg.max_mission_items m item
  | .update_mission_item k f =>
    match (updateItem m k f).mapError storeToTool with
    | .error e => .error e
    | .ok m2 => .ok (m2, [])
  | .delete_mission_item k =>
    match (deleteItem m k).mapError storeToTool with
    | .error e => .error e
    | .ok m2 => .ok (m2, [])
  | .move_mission_item f t =>
    match (moveItem m f t).mapError storeToTool with
    | .error e => .error e
    | .ok m2 => .ok (m2, [])

/-- One dispatcher call as validation followed by mutation. -/
def dispatchE (cfg : AgentConfig) (m : Mission) (call : ToolCall) :
    Except ToolError (Mission × List Note) :=
  match validateArgs call with
  | some e => .error e
  | none => mutateCall cfg m call

/-- Structured outcome of a dispatcher call. -/
inductive DispatchOutcome
  | ok (notes : List Note)
  | err (e : ToolError)
deriving DecidableEq, Repr

/-- Modelled from the spec (§4.3, §7): a dispatcher call returns the updated
mission and a structured outcome; advisory validation issues are collected on
success; a failing call returns its error with the mission unchanged. -/
def dispatch (cfg : AgentConfig) (m : Mission) (call : ToolCall) :
    Mission × DispatchOutcome :=
  match dispatchE cfg m call with
  | .ok (m2, notes) =>
    (m2, .ok (notes ++ (checkIssues cfg m2).map Note.validation))
  | .error e => (m, .err e)

/-! ## ApprovalWorkflow (spec §4.6) -/

/-- Modelled from the spec: the workflow states. -/
inductive WfState
  | building
  | underReview
  | approved
  | rejected
deriving DecidableEq, Repr

/-- Modelled from the spec: a workflow session — its state and its mission. -/
structure WfSession where
  state : WfState
  mission : Mission
deriving DecidableEq, Repr

/-- The fatal issues among a report. -/
def fatals (issues : List Issue) : List Issue :=
  issues.filter fun i => i.severity == Severity.fatal

/-- Modelled from the spec (§4.6): show_mission_for_approval runs the
pipeline in strict mode; any remaining fatal error aborts the
Building→UnderReview transition, returning to Building with the error list —
UnderReview is never entered. -/
def show_mission_for_approval (cfg : AgentConfig) (s : WfSession) :
    WfSession × List Issue :=
  if s.state = WfState.building then
    let r := runPipeline cfg true s.mission
    if (fatals r.2).isEmpty then
      ({ state := .underReview, mission := r.1 }, r.2)
    else
      ({ state := .building, mission := r.1 }, fatals r.2)
  else
    (s, [])

/-! ## Web chat client (embedded from src/static/script.js) -/

namespace Client

/-- JS String.prototype.trim, modelled on the character list. -/
def trimChars (cs : List Char) : List Char :=
  ((cs.dropWhile Char.isWhitespace).reverse.dropWhile Char.isWhitespace).reverse

/-- JS String.prototype.trim on Lean strings. -/
def jsTrim (s : String) : String :=
  { data := trimChars s.data }

/-- JS String.prototype.toLowerCase, modelled on the character list. -/
def jsLower (s : String) : String :=
  { data := s.data.map Char.toLower }

/-- The two client modes (script.js currentMode). -/
inductive Mode
  | mission
  | command
deriving DecidableEq, Repr

/-- The kind of a chat message div (script.js addMessage type). -/
inductive MsgKind
  | user
  | agent
  | error
deriving DecidableEq, Repr

/-- One chat message appended by addMessage. -/
structure ChatMessage where
  kind : MsgKind
  content : String
deriving DecidableEq, Repr

/-- The HTTP requests the client can fire from sendMessage /
showMissionReview. -/
inductive NetRequest
  | missionPost (user_input : String)
  | commandPost (user_input : String)
  | missionShow
deriving DecidableEq, Repr

/-- The client state of PX4AgentClient: mode, connection and processing
flags, the input field, the send button, the loading overlay, the chat
transcript (messages other than the welcome message) and the mission state
panel (rendered item blocks; the empty list models the
"No mission items yet" marker). -/
structure ClientState where
  currentMode : Mode
  isConnected : Bool
  isProcessing : Bool
  inputValue : String
  sendEnabled : Bool
  loading : Bool
  chat : List ChatMessage
  missionPanel : List String
  takeoffPanelVisible : Bool
  currentActionPanelVisible : Bool
deriving DecidableEq, Repr

/-- Embedded from script.js updateSendButton (lines 178-183): the button is
enabled exactly when connected, the trimmed input is non-empty, and no
request is processing. -/
def updateSendButton (s : ClientState) : ClientState :=
  { s with sendEnabled :=
      s.isConnected && decide (0 < (jsTrim s.inputValue).length) &&
        !s.isProcessing }

/-- Embedded from script.js addMessage (lines 288-311): append a message to
the chat transcript. -/
def addMessage (s : ClientState) (k : MsgKind) (content : String) :
    ClientState :=
  { s with chat := s.chat ++ [{ kind := k, content := content }] }

/-- Embedded from script.js clearChat (lines 313-317): remove every message
except the welcome message. -/
def clearChat (s : ClientState) : ClientState :=
  { s with chat := [] }

/-- Embedded from script.js clearMissionState (lines 319-322): reset the
mission panel to the empty state. -/
def clearMissionState (s : ClientState) : ClientState :=
  { s with missionPanel := [] }

/-- The notice posted by switchMode. -/
def switchModeMsg : Mode → String
  | .command => "Switched to Command Mode. Each command will create a fresh mission."
  | .mission => "Switched to Mission Mode. Build your mission step by step."

/-- Embedded from script.js switchMode (lines 142-176): set the mode and the
settings-panel visibility, clear the chat and the mission state, and post
the mode-switch notice. -/
def switchMode (s : ClientState) (mode : Mode) : ClientState :=
  let s1 : ClientState :=
    { s with
      currentMode := mode
      takeoffPanelVisible := mode == Mode.mission
      currentActionPanelVisible := mode == Mode.command }
  addMessage (clearMissionState (clearChat s1)) .agent (switchModeMsg mode)

/-- Embedded from script.js sendMessage (lines 185-256) together with the
start of showMissionReview (lines 258-267), modelled up to the point where
the HTTP request is issued: returns the updated client state and the network
request fired, if any.  The guard returns unchanged when the trimmed input
is empty, the client is disconnected, or a request is processing; "show" /
"review" divert to POST /api/mission/show; "clear" clears only the chat
transcript; otherwise the message is posted to the endpoint of the current
mode. -/
def sendMessage (s : ClientState) : ClientState × Option NetRequest :=
  let message := jsTrim s.inputValue
  if message = "" ∨ s.isConnected = false ∨ s.isProcessing = true then
    (s, none)
  else if jsLower message = "show" ∨ jsLower message = "review" then
    let s1 : ClientState := { s with loading := true }
    (updateSendButton { s1 with inputValue := "" }, some .missionShow)
  else if jsLower message = "clear" then
    (updateSendButton { clearChat s with inputValue := "" }, none)
  else
    let s1 := addMessage s .user message
    let s2 := updateSendButton { s1 with inputValue := "" }
    let s3 : ClientState := { s2 with loading := true, isProcessing := true }
    (s3,
      some (match s.currentMode with
        | .mission => .missionPost message
        | .command => .commandPost message))

/-- One settings-form input field as read after trimming: empty, filled with
non-numeric text (isNaN), or filled with a numeric value. -/
inductive FieldInput
  | empty
  | text
  | num (q : ℚ)
deriving DecidableEq, Repr

/-- Whether a form field has content (JS string truthiness after trim). -/
def fieldFilled : FieldInput → Bool
  | .empty => false
  | .text => true
  | .num _ => true

/-- Embedded from script.js validateTakeoffSettingsForm (lines 521-537):
every filled field must be valid (latitude in [-90, 90], longitude in
[-180, 180], the heading dropdown is always valid) and at least one field
must have content; the Set button is enabled exactly when this holds. -/
def validateTakeoffSettingsForm (lat lon : FieldInput) (heading : String) :
    Bool :=
  let latValid :=
    match lat with
    | .empty => true
    | .text => false
    | .num q => decide (-90 ≤ q ∧ q ≤ 90)
  let lonValid :=
    match lon with
    | .empty => true
    | .text => false
    | .num q => decide (-180 ≤ q ∧ q ≤ 180)
  let headingValid := true
  let hasContent := fieldFilled lat || fieldFilled lon || heading != ""
  latValid && lonValid && headingValid && hasContent

/-- Embedded from script.js validateCurrentActionForm (lines 539-559):
every filled field must be valid (latitude in [-90, 90], longitude in
[-180, 180], altitude > 0, radius > 0) and at least one of those fields must
have content; the Set button is enabled exactly when this holds. -/
def validateCurrentActionForm (lat lon alt radius : FieldInput) : Bool :=
  let latValid :=
    match lat with
    | .empty => true
    | .text => false
    | .num q => decide (-90 ≤ q ∧ q ≤ 90)
  let lonValid :=
    match lon with
    | .empty => true
    | .text => false
    | .num q => decide (-180 ≤ q ∧ q ≤ 180)
  let altValid :=
    match alt with
    | .empty => true
    | .text => false
    | .num q => decide (0 < q)
  let radiusValid :=
    match radius with
    | .empty => true
    | .text => false
    | .num q => decide (0 < q)
  let hasContent :=
    fieldFilled lat || fieldFilled lon || fieldFilled alt ||
      fieldFilled radius
  latValid && lonValid && altValid && radiusValid && hasContent

end Client

/-! ## Concrete sample data

A configuration mirroring config/default_config.json from the repository
README, and small concrete missions, sessions and client states used to
evaluate the verified operations on closed inputs. -/

/-- Run a sequence of addItem mutations (failed additions leave the mission
unchanged, per the atomicity discipline). -/
def addAll (maxItems : Nat) (m : Mission) (adds : List MissionItem) : Mission :=
  adds.foldl (fun acc it => applyStoreOp maxItems acc (StoreOp.add it)) m

/-- Sample configuration, mirroring config/default_config.json of the
repository README. -/
def cfg0 : AgentConfig :=
  { max_mission_items := 100
    auto_add_missing_takeoff := true
    auto_add_missing_rtl := true
    auto_complete_parameters := true
    takeoff_origin := some { latitude := 418832 / 10000, longitude := -876324 / 10000 }
    takeoff_default_heading := .compass .north
    takeoff_default_altitude := some 150
    waypoint_default_altitude := some 300
    loiter_default_altitude := some 300
    loiter_default_radius := some 500
    survey_default_altitude := some 300
    survey_default_radius := some 500
    rtl_default_altitude := some 150 }

/-- A sample mission item of the given type. -/
def sampleItem (t : CommandType) : MissionItem :=
  mkItem t { latitude := 41, longitude := -87 } 150 (some 500) none none none none

/-- A contiguous three-item mission. -/
def mission3 : Mission :=
  renumber [sampleItem .takeoff, sampleItem .waypoint, sampleItem .rtl]

/-- A contiguous mission already containing a takeoff and an RTL. -/
def mission2 : Mission :=
  renumber [sampleItem .takeoff, sampleItem .rtl]

/-- A mission whose takeoff is preceded by another item: the takeoff-first
ordering check is an uncorrectable fatal error. -/
def missionFatal : Mission :=
  renumber [sampleItem .waypoint, sampleItem .takeoff]

/-- A Building session holding the fatally mis-ordered mission. -/
def sessFatal : WfSession :=
  { state := .building, mission := missionFatal }

/-- A connected, idle client state whose input field holds "clear" while the
mission panel shows one item. -/
def clientClear : Client.ClientState :=
  { currentMode := .mission
    isConnected := true
    isProcessing := false
    inputValue := "clear"
    sendEnabled := true
    loading := false
    chat := [{ kind := .user, content := "hi" }]
    missionPanel := ["takeoff"]
    takeoffPanelVisible := true
    currentActionPanelVisible := false }

/-- The same client state with "Show" typed into the input field. -/
def clientShow : Client.ClientState :=
  { clientClear with inputValue := "Show" }

/-- The same client state with only whitespace in the input field. -/
def clientIdle : Client.ClientState :=
  { clientClear with inputValue := "  " }

/-! ## Store lemmas -/

theorem seqContiguous_iff_getElem (m : List MissionItem) :
    SeqContiguous m ↔ ∀ i : Nat, (h : i < m.length) → m[i].sequence = i := by
  constructor
  · intro hm i h
    have := hm i h
    rwa [List.get_eq_getElem] at this
  · intro hm i h
    rw [List.get_eq_getElem]
    exact hm i h

/-! ### Renumbering lemmas -/

theorem length_renumberFrom (n : Nat) (l : List MissionItem) :
    (renumberFrom n l).length = l.length := by
  induction l generalizing n with
  | nil => rfl
  | cons a rest ih => simp [renumberFrom, ih]

theorem get_renumberFrom (n : Nat) (l : List MissionItem) (i : Nat)
    (h' : i < l.length) (h : i < (renumberFrom n l).length) :
    (renumberFrom n l).get ⟨i, h⟩ = { l.get ⟨i, h'⟩ with sequence := n + i } := by
  induction l generalizing n i with
  | nil => exact absurd h' (Nat.not_lt_zero i)
  | cons a rest ih =>
    cases i with
    | zero => rfl
    | succ j =>
      have hj : j < rest.length := Nat.lt_of_succ_lt_succ h'
      have hj2 : j < (renumberFrom (n + 1) rest).length := by
        rw [length_renumberFrom]; exact hj
      have := ih (n + 1) j hj hj2
      simp only [renumberFrom, List.get_cons_succ]
      rw [this]
      have : n + 1 + j = n + (j + 1) := by omega
      rw [this]

theorem seqContiguous_renumber (l : List MissionItem) :
    SeqContiguous (renumber l) := by
  intro i h
  have h0 : i < (renumberFrom 0 l).length := h
  have h' : i < l.length := by
    rw [length_renumberFrom] at h0
    exact h0
  show ((renumberFrom 0 l).get ⟨i, h0⟩).sequence = i
  rw [get_renumberFrom 0 l i h' h0]
  simp

theorem getElem_renumberFrom (n : Nat) (l : List MissionItem) (i : Nat)
    (h' : i < l.length) (h : i < (renumberFrom n l).length) :
    (renumberFrom n l)[i] = { l[i] with sequence := n + i } := by
  induction l generalizing n i with
  | nil => exact absurd h' (Nat.not_lt_zero i)
  | cons a rest ih =>
    cases i with
    | zero => rfl
    | succ j =>
      have hj : j < rest.length := Nat.lt_of_succ_lt_succ h'
      have hj2 : j < (renumberFrom (n + 1) rest).length := by
        rw [length_renumberFrom]
        exact hj
      have hrec := ih (n + 1) j hj hj2
      simp only [renumberFrom, List.getElem_cons_succ]
      rw [hrec]
      have hn : n + 1 + j = n + (j + 1) := by omega
      rw [hn]

/-! ### Payload lemmas: stripping the sequence numbers -/

theorem stripSeq_with_seq (a : MissionItem) (n : Nat) :
    stripSeq { a with sequence := n } = stripSeq a := by
  cases a
  rfl

theorem with_seq_self (a : MissionItem) :
    ({ a with sequence := a.sequence } : MissionItem) = a := by
  cases a
  rfl

theorem with_seq_congr (a b : MissionItem) (n : Nat) (h : stripSeq a = stripSeq b) :
    ({ a with sequence := n } : MissionItem) = { b with sequence := n } := by
  cases a
  cases b
  simp only [stripSeq, MissionItem.mk.injEq, true_and] at h ⊢
  exact h

theorem strip_renumberFrom (n : Nat) (l : List MissionItem) :
    strip (renumberFrom n l) = strip l := by
  induction l generalizing n with
  | nil => rfl
  | cons a rest ih =>
    simp only [renumberFrom, strip, List.map_cons]
    rw [show stripSeq { a with sequence := n } = stripSeq a from stripSeq_with_seq a n]
    exact congrArg _ (ih (n + 1))

theorem renumberFrom_congr (n : Nat) (l1 l2 : List MissionItem)
    (h : strip l1 = strip l2) : renumberFrom n l1 = renumberFrom n l2 := by
  induction l1 generalizing n l2 with
  | nil =>
    cases l2 with
    | nil => rfl
    | cons b rest2 => simp [strip] at h
  | cons a rest ih =>
    cases l2 with
    | nil => simp [strip] at h
    | cons b rest2 =>
      simp only [strip, List.map_cons, List.cons.injEq] at h
      simp only [renumberFrom, List.cons.injEq]
      exact ⟨with_seq_congr a b n h.1, ih (n + 1) rest2 h.2⟩

theorem renumberFrom_eq_self (n : Nat) (l : List MissionItem)
    (h : ∀ i : Nat, (hi : i < l.length) → l[i].sequence = n + i) :
    renumberFrom n l = l := by
  induction l generalizing n with
  | nil => rfl
  | cons a rest ih =>
    have h0 : a.sequence = n := by
      have := h 0 (by simp)
      simpa using this
    simp only [renumberFrom, List.cons.injEq]
    constructor
    · rw [← h0]
    · refine ih (n + 1) fun i hi => ?_
      have h2 := h (i + 1) (by simpa using Nat.succ_lt_succ hi)
      simp only [List.getElem_cons_succ] at h2
      omega

theorem renumber_eq_self (m : List MissionItem) (hm : SeqContiguous m) :
    renumber m = m := by
  refine renumberFrom_eq_self 0 m fun i hi => ?_
  have := (seqContiguous_iff_getElem m).mp hm i hi
  simpa using this

/-! ### General list helpers -/

theorem eraseIdx_map_comm {α β : Type} (f : α → β) :
    ∀ (l : List α) (k : Nat), (l.eraseIdx k).map f = (l.map f).eraseIdx k
  | [], _ => by simp
  | _ :: _, 0 => by simp
  | a :: l, k + 1 => by
    simp only [List.eraseIdx_cons_succ, List.map_cons]
    exact congrArg _ (eraseIdx_map_comm f l k)

theorem insertIdx_map_comm {α β : Type} (f : α → β) :
    ∀ (l : List α) (k : Nat) (x : α),
      (l.insertIdx k x).map f = (l.map f).insertIdx k (f x)
  | _, 0, _ => by simp
  | [], _ + 1, _ => by simp
  | a :: l, k + 1, x => by
    simp only [List.insertIdx_succ_cons, List.map_cons]
    exact congrArg _ (insertIdx_map_comm f l k x)

theorem insertIdx_getElem_eraseIdx {α : Type} :
    ∀ (l : List α) (k : Nat) (h : k < l.length),
      (l.eraseIdx k).insertIdx k l[k] = l
  | [], k, h => absurd h (by simp)
  | a :: l, 0, _ => by simp
  | a :: l, k + 1, h => by
    simp only [List.eraseIdx_cons_succ, List.insertIdx_succ_cons, List.getElem_cons_succ]
    exact congrArg _ (insertIdx_getElem_eraseIdx l k (Nat.lt_of_succ_lt_succ h))

/-! ### Contiguity is preserved by every MissionStore mutation -/

theorem seqContiguous_addItem (maxItems : Nat) (m : List MissionItem)
    (it : MissionItem) (hm : SeqContiguous m) :
    SeqContiguous (applyStoreOp maxItems m (.add it)) := by
  by_cases hc : m.length + 1 ≤ maxItems
  · simp only [applyStoreOp, runStoreOp, addItem, if_pos hc]
    rw [seqContiguous_iff_getElem]
    intro i h
    have hlen : i < m.length + 1 := by simpa using h
    rcases Nat.lt_or_ge i m.length with hi | hi
    · rw [List.getElem_append_left hi]
      exact (seqContiguous_iff_getElem m).mp hm i hi
    · have hi2 : i = m.length := by omega
      rw [List.getElem_append_right hi]
      subst hi2
      simp
  · simp only [applyStoreOp, runStoreOp, addItem, if_neg hc]
    exact hm

theorem seqContiguous_updateItem (maxItems : Nat) (m : List MissionItem)
    (k : Nat) (f : UpdateFields) (hm : SeqContiguous m) :
    SeqContiguous (applyStoreOp maxItems m (.update k f)) := by
  by_cases hk : k < m.length
  · simp only [applyStoreOp, runStoreOp, updateItem, dif_pos hk]
    rw [seqContiguous_iff_getElem]
    intro i h
    have hi : i < m.length := by simpa using h
    rw [List.getElem_set]
    split
    · rename_i hki
      subst hki
      have : (applyUpdate (m.get ⟨k, hk⟩) f).sequence = (m.get ⟨k, hk⟩).sequence := by
        simp [applyUpdate]
      rw [this]
      exact hm k hk
    · exact (seqContiguous_iff_getElem m).mp hm i hi
  · simp only [applyStoreOp, runStoreOp, updateItem, dif_neg hk]
    exact hm

theorem seqContiguous_deleteItem (maxItems : Nat) (m : List MissionItem)
    (k : Nat) (hm : SeqContiguous m) :
    SeqContiguous (applyStoreOp maxItems m (.del k)) := by
  by_cases hk : k < m.length
  · simp only [applyStoreOp, runStoreOp, deleteItem, if_pos hk]
    rw [seqContiguous_iff_getElem]
    intro i h
    have htake : (m.take k).length = k := by
      simp [Nat.min_eq_left (Nat.le_of_lt hk)]
    have hdrop : (m.drop (k + 1)).length = m.length - (k + 1) := by simp
    have hlen : i < k + (m.length - (k + 1)) := by
      have := h
      simp only [List.length_append, htake, length_renumberFrom, hdrop] at this
      exact this
    rcases Nat.lt_or_ge i k with hi | hi
    · have hi2 : i < (m.take k).length := by rw [htake]; exact hi
      rw [List.getElem_append_left hi2]
      rw [List.getElem_take]
      exact (seqContiguous_iff_getElem m).mp hm i (by omega)
    · have hi2 : (m.take k).length ≤ i := by rw [htake]; exact hi
      rw [List.getElem_append_right hi2]
      have hb : i - (m.take k).length < (m.drop (k + 1)).length := by
        rw [htake, hdrop]
        omega
      rw [getElem_renumberFrom k (m.drop (k + 1)) _ hb]
      simp only [htake]
      omega
  · simp only [applyStoreOp, runStoreOp, deleteItem, if_neg hk]
    exact hm

theorem seqContiguous_moveItem (maxItems : Nat) (m : List MissionItem)
    (f t : Nat) (hm : SeqContiguous m) :
    SeqContiguous (applyStoreOp maxItems m (.move f t)) := by
  by_cases hft : f < m.length ∧ t < m.length
  · simp only [applyStoreOp, runStoreOp, moveItem, dif_pos hft]
    exact seqContiguous_renumber _
  · simp only [applyStoreOp, runStoreOp, moveItem, dif_neg hft]
    exact hm

theorem seqContiguous_applyStoreOp (maxItems : Nat) (m : List MissionItem)
    (op : StoreOp) (hm : SeqContiguous m) :
    SeqContiguous (applyStoreOp maxItems m op) := by
  cases op with
  | add it => exact seqContiguous_addItem maxItems m it hm
  | update k f => exact seqContiguous_updateItem maxItems m k f hm
  | del k => exact seqContiguous_deleteItem maxItems m k hm
  | move f t => exact seqContiguous_moveItem maxItems m f t hm


/-! ### Further store lemmas -/

theorem seqContiguous_addAll (maxItems : Nat) (m : Mission)
    (adds : List MissionItem) (hm : SeqContiguous m) :
    SeqContiguous (addAll maxItems m adds) := by
  induction adds generalizing m with
  | nil => exact hm
  | cons a rest ih =>
    exact ih _ (seqContiguous_applyStoreOp maxItems m (.add a) hm)

theorem strip_applyStoreOp_del (maxItems : Nat) (m : Mission) (k : Nat) :
    strip (applyStoreOp maxItems m (.del k)) = (strip m).eraseIdx k := by
  by_cases hk : k < m.length
  · simp only [applyStoreOp, runStoreOp, deleteItem, if_pos hk]
    show strip (m.take k ++ renumberFrom k (m.drop (k + 1))) = _
    have h1 : strip (m.take k ++ renumberFrom k (m.drop (k + 1))) =
        strip (m.take k) ++ strip (renumberFrom k (m.drop (k + 1))) := by
      simp [strip]
    rw [h1, strip_renumberFrom]
    simp only [strip]
    rw [List.map_take, List.map_drop, List.eraseIdx_eq_take_drop_succ]
  · simp only [applyStoreOp, runStoreOp, deleteItem, if_neg hk]
    have hk2 : (strip m).length ≤ k := by
      simp only [strip, List.length_map]
      omega
    rw [List.eraseIdx_of_length_le hk2]

theorem countP_renumberFrom_type (n : Nat) (l : List MissionItem)
    (c : CommandType) :
    (renumberFrom n l).countP (fun it => it.command_type == c) =
      l.countP (fun it => it.command_type == c) := by
  induction l generalizing n with
  | nil => rfl
  | cons a rest ih =>
    simp only [renumberFrom, List.countP_cons, ih]

theorem string_pos_iff (s : String) : (0 < s.length) ↔ s ≠ "" := by
  cases s with
  | mk cs =>
    have h1 : (0 < cs.length) ↔ cs ≠ [] := List.length_pos
    constructor
    · intro h he
      have hd : cs = [] := by
        have := congrArg String.data he
        simpa using this
      exact (h1.mp h) hd
    · intro h
      refine h1.mpr fun he => h ?_
      subst he
      rfl

theorem applyStoreOp_move_of_valid (maxItems : Nat) (m : Mission) (f t : Nat)
    (h : f < m.length ∧ t < m.length) :
    applyStoreOp maxItems m (.move f t) =
      renumber ((m.eraseIdx f).insertIdx t (m.get ⟨f, h.1⟩)) := by
  simp only [applyStoreOp, runStoreOp, moveItem, dif_pos h]

theorem length_applyStoreOp_move (maxItems : Nat) (m : Mission) (f t : Nat)
    (h : f < m.length ∧ t < m.length) :
    (applyStoreOp maxItems m (.move f t)).length = m.length := by
  rw [applyStoreOp_move_of_valid maxItems m f t h]
  show (renumberFrom 0 _).length = _
  rw [length_renumberFrom]
  have he : (m.eraseIdx f).length = m.length - 1 := by
    rw [List.length_eraseIdx]
    simp [h.1]
  rw [List.length_insertIdx _ _ (by omega)]
  omega

theorem strip_move_pre (m : Mission) (f t : Nat)
    (h : f < m.length ∧ t < m.length) :
    strip ((m.eraseIdx f).insertIdx t (m.get ⟨f, h.1⟩)) =
      ((strip m).eraseIdx f).insertIdx t (stripSeq (m.get ⟨f, h.1⟩)) := by
  show ((m.eraseIdx f).insertIdx t (m.get ⟨f, h.1⟩)).map stripSeq = _
  rw [insertIdx_map_comm, eraseIdx_map_comm]
  rfl

/-! ## Claims -/

/-- C1: for every contiguous mission state and every sequence of addItem
mutations followed by deleteItem(k), the resulting sequence numbers are
contiguous 0..n-1 and the surviving items keep their relative order (the
surviving payloads are exactly the pre-deletion payloads with index k
removed, a sublist of them); moreover the contiguity invariant is preserved
by every MissionStore mutation. -/
theorem c1_contiguity_after_add_delete (maxItems : Nat) (m : Mission)
    (adds : List MissionItem) (k : Nat) (hm : SeqContiguous m) :
    SeqContiguous (applyStoreOp maxItems (addAll maxItems m adds) (.del k)) ∧
    strip (applyStoreOp maxItems (addAll maxItems m adds) (.del k)) =
      (strip (addAll maxItems m adds)).eraseIdx k ∧
    (strip (applyStoreOp maxItems (addAll maxItems m adds) (.del k))).Sublist
      (strip (addAll maxItems m adds)) ∧
    (∀ (m2 : Mission) (op : StoreOp), SeqContiguous m2 →
      SeqContiguous (applyStoreOp maxItems m2 op)) := by
  have hA := seqContiguous_addAll maxItems m adds hm
  refine ⟨seqContiguous_applyStoreOp _ _ _ hA, strip_applyStoreOp_del _ _ _, ?_,
    fun m2 op h2 => seqContiguous_applyStoreOp _ _ _ h2⟩
  rw [strip_applyStoreOp_del]
  exact List.eraseIdx_sublist _ _

/-- Witness for C1: the property evaluated on a concrete three-item mission
extended by one waypoint with item 1 then deleted. -/
theorem c1_contiguity_after_add_delete_witness :
    SeqContiguous mission3 ∧
    SeqContiguous
      (applyStoreOp 100 (addAll 100 mission3 [sampleItem .waypoint]) (.del 1)) :=
  ⟨by decide,
    (c1_contiguity_after_add_delete 100 mission3 [sampleItem .waypoint] 1
      (by decide)).1⟩

/-- C2: every ToolDispatcher call is all-or-nothing — whenever a call returns
an error (ArgumentError, ResolutionError, CapacityError or NotFound), the
mission after the call equals the mission before it. -/
theorem c2_dispatch_all_or_nothing (cfg : AgentConfig) (m : Mission)
    (call : ToolCall) (e : ToolError)
    (h : (dispatch cfg m call).2 = DispatchOutcome.err e) :
    (dispatch cfg m call).1 = m := by
  unfold dispatch at h ⊢
  cases hE : dispatchE cfg m call with
  | ok p =>
    obtain ⟨m2, notes⟩ := p
    rw [hE] at h
    exact absurd h (by simp)
  | error e2 =>
    rfl

/-- Witness for C2: a waypoint call with a non-positive altitude returns an
ArgumentError and leaves the empty mission unchanged. -/
theorem c2_dispatch_all_or_nothing_witness :
    (dispatch cfg0 [] (.add_waypoint (some (-5)) none none none)).2 =
      DispatchOutcome.err (.argumentError .altitude) ∧
    (dispatch cfg0 [] (.add_waypoint (some (-5)) none none none)).1 = [] :=
  ⟨by decide,
    c2_dispatch_all_or_nothing cfg0 [] (.add_waypoint (some (-5)) none none none)
      (.argumentError .altitude) (by decide)⟩

/-- C3: PositionResolver.resolve is deterministic — resolving an identical
spec against an identical mission state and configuration yields the
identical coordinate. -/
theorem c3_resolve_deterministic (s1 s2 : PositionSpec) (m1 m2 : Mission)
    (cfg1 cfg2 : AgentConfig) (hs : s1 = s2) (hm : m1 = m2) (hc : cfg1 = cfg2) :
    resolve s1 m1 cfg1 = resolve s2 m2 cfg2 := by
  subst hs
  subst hm
  subst hc
  rfl

/-- Witness for C3: two resolutions of the same relative spec against the
same concrete mission state coincide. -/
theorem c3_resolve_deterministic_witness :
    resolve (.relative 2 .miles (.compass .north) .last_waypoint) mission3 cfg0 =
      resolve (.relative 2 .miles (.compass .north) .last_waypoint) mission3 cfg0 :=
  c3_resolve_deterministic _ _ _ _ _ _ rfl rfl rfl

/-- C4: for every contiguous mission and valid positions f and t,
moveItem(f, t) followed by moveItem(t, f) restores the original mission. -/
theorem c4_move_roundtrip (maxItems : Nat) (m : Mission) (f t : Nat)
    (hm : SeqContiguous m) (hf : f < m.length) (ht : t < m.length) :
    applyStoreOp maxItems (applyStoreOp maxItems m (.move f t)) (.move t f) = m := by
  have h1 : f < m.length ∧ t < m.length := ⟨hf, ht⟩
  have hef : (m.eraseIdx f).length = m.length - 1 := by
    rw [List.length_eraseIdx]
    simp [h1.1]
  have htle : t ≤ (m.eraseIdx f).length := by omega
  have hpre : ((m.eraseIdx f).insertIdx t (m.get ⟨f, h1.1⟩)).length = m.length := by
    rw [List.length_insertIdx _ _ htle]
    omega
  rw [applyStoreOp_move_of_valid maxItems m f t h1]
  simp only [renumber]
  have hlen1 :
      (renumberFrom 0 ((m.eraseIdx f).insertIdx t (m.get ⟨f, h1.1⟩))).length =
        m.length := by
    rw [length_renumberFrom, hpre]
  have hft1 :
      t < (renumberFrom 0 ((m.eraseIdx f).insertIdx t (m.get ⟨f, h1.1⟩))).length ∧
      f < (renumberFrom 0 ((m.eraseIdx f).insertIdx t (m.get ⟨f, h1.1⟩))).length := by
    omega
  have hmv2 := applyStoreOp_move_of_valid maxItems
    (renumberFrom 0 ((m.eraseIdx f).insertIdx t (m.get ⟨f, h1.1⟩))) t f hft1
  simp only [renumber] at hmv2
  rw [hmv2]
  have hbt : t < ((m.eraseIdx f).insertIdx t (m.get ⟨f, h1.1⟩)).length := by
    omega
  have hXt : ((m.eraseIdx f).insertIdx t (m.get ⟨f, h1.1⟩))[t] = m.get ⟨f, h1.1⟩ :=
    List.getElem_insertIdx_self (m.eraseIdx f) (m.get ⟨f, h1.1⟩) t htle
  have hsl : (strip m).length = m.length := by
    simp [strip]
  have hfs : f < (strip m).length := by omega
  have hsy2 :
      stripSeq ((renumberFrom 0 ((m.eraseIdx f).insertIdx t (m.get ⟨f, h1.1⟩))).get
        ⟨t, hft1.1⟩) = (strip m)[f] := by
    rw [List.get_eq_getElem]
    rw [getElem_renumberFrom 0 _ t hbt hft1.1]
    rw [stripSeq_with_seq]
    rw [hXt]
    rw [List.get_eq_getElem]
    exact (List.getElem_map stripSeq).symm
  have hstrip :
      strip (((renumberFrom 0 ((m.eraseIdx f).insertIdx t (m.get ⟨f, h1.1⟩))).eraseIdx t).insertIdx f
        ((renumberFrom 0 ((m.eraseIdx f).insertIdx t (m.get ⟨f, h1.1⟩))).get ⟨t, hft1.1⟩)) =
      strip m := by
    show (((renumberFrom 0 ((m.eraseIdx f).insertIdx t (m.get ⟨f, h1.1⟩))).eraseIdx t).insertIdx f
        ((renumberFrom 0 ((m.eraseIdx f).insertIdx t (m.get ⟨f, h1.1⟩))).get ⟨t, hft1.1⟩)).map stripSeq =
      strip m
    rw [insertIdx_map_comm, eraseIdx_map_comm]
    rw [show (renumberFrom 0 ((m.eraseIdx f).insertIdx t (m.get ⟨f, h1.1⟩))).map stripSeq =
        strip ((m.eraseIdx f).insertIdx t (m.get ⟨f, h1.1⟩)) from
      strip_renumberFrom 0 _]
    rw [strip_move_pre m f t h1]
    rw [List.eraseIdx_insertIdx]
    rw [hsy2]
    exact insertIdx_getElem_eraseIdx (strip m) f hfs
  rw [renumberFrom_congr 0 _ m hstrip]
  exact renumber_eq_self m hm

/-- Witness for C4: moving item 0 to position 2 and back restores the
concrete three-item mission. -/
theorem c4_move_roundtrip_witness :
    SeqContiguous mission3 ∧ 0 < mission3.length ∧ 2 < mission3.length ∧
    applyStoreOp 100 (applyStoreOp 100 mission3 (.move 0 2)) (.move 2 0) =
      mission3 :=
  ⟨by decide, by decide, by decide,
    c4_move_roundtrip 100 mission3 0 2 (by decide) (by decide) (by decide)⟩

theorem upsertTakeoff_of_hasTakeoff (maxItems : Nat) (m : Mission)
    (item : MissionItem) (hT : hasTakeoff m = true)
    (hcap : m.length ≤ maxItems) :
    upsertTakeoff maxItems m item =
      .ok (renumber (m.map fun j =>
        if j.command_type == CommandType.takeoff then item else j),
        [.replacedTakeoff]) := by
  have hclen : ∀ g : MissionItem → MissionItem,
      (renumber (m.map g)).length = m.length := fun g => by
    show (renumberFrom 0 _).length = _
    rw [length_renumberFrom, List.length_map]
  simp [upsertTakeoff, hT, hclen, hcap]

theorem upsertRtl_of_hasRtl (maxItems : Nat) (m : Mission)
    (item : MissionItem) (hR : hasRtl m = true)
    (hcap : m.length ≤ maxItems) :
    upsertRtl maxItems m item =
      .ok (renumber (m.map fun j =>
        if j.command_type == CommandType.rtl then item else j),
        [.replacedRtl]) := by
  have hclen : ∀ g : MissionItem → MissionItem,
      (renumber (m.map g)).length = m.length := fun g => by
    show (renumberFrom 0 _).length = _
    rw [length_renumberFrom, List.length_map]
  simp [upsertRtl, hR, hclen, hcap]

theorem countP_upsert_map (m : Mission) (item : MissionItem) (c : CommandType)
    (hitem : item.command_type = c) :
    (m.map fun j => if j.command_type == c then item else j).countP
        (fun it => it.command_type == c) =
      m.countP (fun it => it.command_type == c) := by
  rw [List.countP_map]
  refine List.countP_congr fun x _ => ?_
  by_cases hx : x.command_type == c
  · simp [Function.comp, hx, hitem]
  · simp [Function.comp, hx]

/-- C5: add_takeoff and add_rtl are idempotent upserts — on a mission within
capacity that already contains a takeoff (resp. RTL), a repeated call
succeeds, replaces the existing single instance instead of adding a second
one (the item count is unchanged and the count of takeoff/RTL items stays
one), and the result carries a replacement warning. -/
theorem c5_add_upserts (cfg : AgentConfig) (m : Mission)
    (hcap : m.length ≤ cfg.max_mission_items) :
    (hasTakeoff m = true →
      ∃ m2 notes, dispatch cfg m (.add_takeoff none none) = (m2, .ok notes) ∧
        m2.length = m.length ∧
        (m.countP (fun it => it.command_type == CommandType.takeoff) = 1 →
          m2.countP (fun it => it.command_type == CommandType.takeoff) = 1) ∧
        Note.replacedTakeoff ∈ notes) ∧
    (hasRtl m = true →
      ∃ m2 notes, dispatch cfg m (.add_rtl none) = (m2, .ok notes) ∧
        m2.length = m.length ∧
        (m.countP (fun it => it.command_type == CommandType.rtl) = 1 →
          m2.countP (fun it => it.command_type == CommandType.rtl) = 1) ∧
        Note.replacedRtl ∈ notes) := by
  constructor
  · intro hT
    have hu := upsertTakeoff_of_hasTakeoff cfg.max_mission_items m
      (mkItem .takeoff (cfg.takeoff_origin.getD { latitude := 0, longitude := 0 })
        (completeAltitude .takeoff none cfg) none
        (some (completeHeading none cfg)) none none none) hT hcap
    have hd : dispatch cfg m (.add_takeoff none none) =
        (renumber (m.map fun j =>
          if j.command_type == CommandType.takeoff then
            mkItem .takeoff
              (cfg.takeoff_origin.getD { latitude := 0, longitude := 0 })
              (completeAltitude .takeoff none cfg) none
              (some (completeHeading none cfg)) none none none
          else j),
         .ok ([.replacedTakeoff] ++ (checkIssues cfg (renumber (m.map fun j =>
          if j.command_type == CommandType.takeoff then
            mkItem .takeoff
              (cfg.takeoff_origin.getD { latitude := 0, longitude := 0 })
              (completeAltitude .takeoff none cfg) none
              (some (completeHeading none cfg)) none none none
          else j))).map Note.validation)) := by
      simp only [dispatch, dispatchE, validateArgs, checkPositive, mutateCall]
      rw [hu]
    refine ⟨_, _, hd, ?_, ?_, ?_⟩
    · show (renumberFrom 0 _).length = _
      rw [length_renumberFrom, List.length_map]
    · intro h1
      have hc2 : (renumber (m.map fun j =>
          if j.command_type == CommandType.takeoff then
            mkItem .takeoff
              (cfg.takeoff_origin.getD { latitude := 0, longitude := 0 })
              (completeAltitude .takeoff none cfg) none
              (some (completeHeading none cfg)) none none none
          else j)).countP (fun it => it.command_type == CommandType.takeoff) =
          m.countP (fun it => it.command_type == CommandType.takeoff) := by
        show (renumberFrom 0 _).countP _ = _
        rw [countP_renumberFrom_type]
        exact countP_upsert_map m _ .takeoff rfl
      rw [hc2]
      exact h1
    · simp
  · intro hR
    have hu := upsertRtl_of_hasRtl cfg.max_mission_items m
      (mkItem .rtl (cfg.takeoff_origin.getD { latitude := 0, longitude := 0 })
        (completeAltitude .rtl none cfg) none none none none none) hR hcap
    have hd : dispatch cfg m (.add_rtl none) =
        (renumber (m.map fun j =>
          if j.command_type == CommandType.rtl then
            mkItem .rtl
              (cfg.takeoff_origin.getD { latitude := 0, longitude := 0 })
              (completeAltitude .rtl none cfg) none none none none none
          else j),
         .ok ([.replacedRtl] ++ (checkIssues cfg (renumber (m.map fun j =>
          if j.command_type == CommandType.rtl then
            mkItem .rtl
              (cfg.takeoff_origin.getD { latitude := 0, longitude := 0 })
              (completeAltitude .rtl none cfg) none none none none none
          else j))).map Note.validation)) := by
      simp only [dispatch, dispatchE, validateArgs, checkPositive, mutateCall]
      rw [hu]
    refine ⟨_, _, hd, ?_, ?_, ?_⟩
    · show (renumberFrom 0 _).length = _
      rw [length_renumberFrom, List.length_map]
    · intro h1
      have hc2 : (renumber (m.map fun j =>
          if j.command_type == CommandType.rtl then
            mkItem .rtl
              (cfg.takeoff_origin.getD { latitude := 0, longitude := 0 })
              (completeAltitude .rtl none cfg) none none none none none
          else j)).countP (fun it => it.command_type == CommandType.rtl) =
          m.countP (fun it => it.command_type == CommandType.rtl) := by
        show (renumberFrom 0 _).countP _ = _
        rw [countP_renumberFrom_type]
        exact countP_upsert_map m _ .rtl rfl
      rw [hc2]
      exact h1
    · simp

/-- Witness for C5: a repeated add_takeoff against the concrete mission that
already holds one takeoff succeeds with an unchanged item count and a
replacement warning. -/
theorem c5_add_upserts_witness :
    mission2.length ≤ cfg0.max_mission_items ∧ hasTakeoff mission2 = true ∧
    (∃ m2 notes,
      dispatch cfg0 mission2 (.add_takeoff none none) = (m2, .ok notes) ∧
      m2.length = mission2.length ∧
      (mission2.countP (fun it => it.command_type == CommandType.takeoff) = 1 →
        m2.countP (fun it => it.command_type == CommandType.takeoff) = 1) ∧
      Note.replacedTakeoff ∈ notes) :=
  ⟨by decide, by decide, (c5_add_upserts cfg0 mission2 (by decide)).1 (by decide)⟩

/-- C6: with an uncorrected fatal validation error, show_mission_for_approval
aborts the Building→UnderReview transition — the session returns to Building
with the non-empty fatal error list, and UnderReview is never entered. -/
theorem c6_fatal_blocks_under_review (cfg : AgentConfig) (s : WfSession)
    (hb : s.state = WfState.building)
    (hf : fatals (runPipeline cfg true s.mission).2 ≠ []) :
    (show_mission_for_approval cfg s).1.state = WfState.building ∧
    (show_mission_for_approval cfg s).1.state ≠ WfState.underReview ∧
    (show_mission_for_approval cfg s).2 =
      fatals (runPipeline cfg true s.mission).2 ∧
    (show_mission_for_approval cfg s).2 ≠ [] := by
  have hIE : (fatals (runPipeline cfg true s.mission).2).isEmpty = false := by
    simpa [List.isEmpty_iff] using hf
  have hshow : show_mission_for_approval cfg s =
      ({ state := .building, mission := (runPipeline cfg true s.mission).1 },
        fatals (runPipeline cfg true s.mission).2) := by
    unfold show_mission_for_approval
    rw [if_pos hb]
    simp [hIE]
  rw [hshow]
  exact ⟨rfl, by simp, rfl, hf⟩

/-- Witness for C6: the concrete session whose takeoff is preceded by a
waypoint stays in Building. -/
theorem c6_fatal_blocks_under_review_witness :
    sessFatal.state = WfState.building ∧
    fatals (runPipeline cfg0 true sessFatal.mission).2 ≠ [] ∧
    (show_mission_for_approval cfg0 sessFatal).1.state = WfState.building :=
  ⟨by decide, by decide,
    (c6_fatal_blocks_under_review cfg0 sessFatal (by decide) (by decide)).1⟩

/-- C7: the settings forms apply the position/default field-validation rules —
whenever a form is accepted, every filled latitude lies in [-90, 90], every
filled longitude in [-180, 180], every filled altitude and radius is strictly
positive, no filled field is non-numeric, and at least one field is filled;
a form with no field filled is never accepted. -/
theorem c7_settings_form_validation (lat lon alt rad : Client.FieldInput)
    (hd : String) :
    (Client.validateTakeoffSettingsForm lat lon hd = true →
      (∀ q, lat = .num q → -90 ≤ q ∧ q ≤ 90) ∧
      (∀ q, lon = .num q → -180 ≤ q ∧ q ≤ 180) ∧
      lat ≠ .text ∧ lon ≠ .text ∧
      (Client.fieldFilled lat = true ∨ Client.fieldFilled lon = true ∨
        hd ≠ "")) ∧
    (Client.validateCurrentActionForm lat lon alt rad = true →
      (∀ q, lat = .num q → -90 ≤ q ∧ q ≤ 90) ∧
      (∀ q, lon = .num q → -180 ≤ q ∧ q ≤ 180) ∧
      (∀ q, alt = .num q → 0 < q) ∧
      (∀ q, rad = .num q → 0 < q) ∧
      alt ≠ .text ∧ rad ≠ .text ∧
      (Client.fieldFilled lat = true ∨ Client.fieldFilled lon = true ∨
        Client.fieldFilled alt = true ∨ Client.fieldFilled rad = true)) ∧
    Client.validateTakeoffSettingsForm .empty .empty ("") = false ∧
    Client.validateCurrentActionForm .empty .empty .empty .empty = false := by
  refine ⟨?_, ?_, by decide, by decide⟩
  · intro h
    simp only [Client.validateTakeoffSettingsForm, Bool.and_eq_true] at h
    obtain ⟨⟨⟨hlat, hlon⟩, -⟩, hcont⟩ := h
    refine ⟨?_, ?_, ?_, ?_, ?_⟩
    · intro q hq
      subst hq
      simpa using hlat
    · intro q hq
      subst hq
      simpa using hlon
    · intro he
      subst he
      simp at hlat
    · intro he
      subst he
      simp at hlon
    · have := hcont
      simp only [Bool.or_eq_true, bne_iff_ne, ne_eq] at this
      tauto
  · intro h
    simp only [Client.validateCurrentActionForm, Bool.and_eq_true] at h
    obtain ⟨⟨⟨⟨hlat, hlon⟩, halt⟩, hrad⟩, hcont⟩ := h
    refine ⟨?_, ?_, ?_, ?_, ?_, ?_, ?_⟩
    · intro q hq
      subst hq
      simpa using hlat
    · intro q hq
      subst hq
      simpa using hlon
    · intro q hq
      subst hq
      simpa using halt
    · intro q hq
      subst hq
      simpa using hrad
    · intro he
      subst he
      simp at halt
    · intro he
      subst he
      simp at hrad
    · have := hcont
      simp only [Bool.or_eq_true] at this
      tauto

/-- Witness for C7: the current-action form accepted with latitude 41 and
altitude 150 indeed has those fields in range. -/
theorem c7_settings_form_validation_witness :
    Client.validateCurrentActionForm (.num 41) .empty (.num 150) .empty = true ∧
    ((∀ q, Client.FieldInput.num (41 : ℚ) = .num q → -90 ≤ q ∧ q ≤ 90) ∧
     (∀ q, Client.FieldInput.empty = .num q → -180 ≤ q ∧ q ≤ 180) ∧
     (∀ q, Client.FieldInput.num (150 : ℚ) = .num q → 0 < q) ∧
     (∀ q, Client.FieldInput.empty = .num q → 0 < q) ∧
     Client.FieldInput.num (150 : ℚ) ≠ .text ∧
     Client.FieldInput.empty ≠ .text ∧
     (Client.fieldFilled (.num 41) = true ∨
      Client.fieldFilled .empty = true ∨
      Client.fieldFilled (.num 150) = true ∨
      Client.fieldFilled .empty = true)) :=
  ⟨by decide,
    (c7_settings_form_validation (.num 41) .empty (.num 150) .empty ("")).2.1
      (by decide)⟩

/-- C8 counterexample: on the concrete connected client state whose input is
"clear" and whose mission panel is non-empty, sendMessage leaves the mission
panel unchanged — the "clear" input does not discard the mission state. -/
theorem c8_clear_keeps_mission_panel :
    Client.jsLower (Client.jsTrim clientClear.inputValue) = "clear" ∧
    clientClear.missionPanel ≠ [] ∧
    (Client.sendMessage clientClear).1.missionPanel =
      clientClear.missionPanel ∧
    (Client.sendMessage clientClear).1.missionPanel ≠ [] := by
  exact ⟨by decide, by decide, by decide, by decide⟩

theorem send_clear_eq (s : Client.ClientState) (hc : s.isConnected = true)
    (hp : s.isProcessing = false)
    (h : Client.jsLower (Client.jsTrim s.inputValue) = "clear") :
    Client.sendMessage s =
      (Client.updateSendButton { Client.clearChat s with inputValue := "" },
        none) := by
  have hne : Client.jsTrim s.inputValue ≠ "" := by
    intro he
    rw [he] at h
    exact absurd h (by decide)
  have hguard : ¬(Client.jsTrim s.inputValue = "" ∨ s.isConnected = false ∨
      s.isProcessing = true) := by
    simp [hne, hc, hp]
  have hns : ¬(Client.jsLower (Client.jsTrim s.inputValue) = "show" ∨
      Client.jsLower (Client.jsTrim s.inputValue) = "review") := by
    rw [h]
    decide
  simp only [Client.sendMessage]
  rw [if_neg hguard, if_neg hns, if_pos h]

/-- C8 (amended): switching mode resets the mission panel to empty (and the
chat to the mode-switch notice) for every client state and either mode; a
"clear" input clears the chat transcript and the input field and issues no
request, but leaves the mission panel unchanged. -/
theorem c8_discard_on_switch_and_clear (s : Client.ClientState)
    (hc : s.isConnected = true) (hp : s.isProcessing = false)
    (h : Client.jsLower (Client.jsTrim s.inputValue) = "clear") :
    (∀ (s2 : Client.ClientState) (mode : Client.Mode),
      (Client.switchMode s2 mode).missionPanel = [] ∧
      (Client.switchMode s2 mode).chat =
        [{ kind := .agent, content := Client.switchModeMsg mode }]) ∧
    (Client.sendMessage s).1.chat = [] ∧
    (Client.sendMessage s).1.inputValue = "" ∧
    (Client.sendMessage s).1.missionPanel = s.missionPanel ∧
    (Client.sendMessage s).2 = none := by
  refine ⟨fun s2 mode => ⟨?_, ?_⟩, ?_, ?_, ?_, ?_⟩
  · simp [Client.switchMode, Client.addMessage, Client.clearMissionState,
      Client.clearChat]
  · simp [Client.switchMode, Client.addMessage, Client.clearMissionState,
      Client.clearChat]
  · rw [send_clear_eq s hc hp h]
    simp [Client.updateSendButton, Client.clearChat]
  · rw [send_clear_eq s hc hp h]
    simp [Client.updateSendButton, Client.clearChat]
  · rw [send_clear_eq s hc hp h]
    simp [Client.updateSendButton, Client.clearChat]
  · rw [send_clear_eq s hc hp h]

/-- Witness for C8 (amended), evaluated on the concrete "clear" state. -/
theorem c8_discard_on_switch_and_clear_witness :
    clientClear.isConnected = true ∧
    Client.jsLower (Client.jsTrim clientClear.inputValue) = "clear" ∧
    (Client.switchMode clientClear .command).missionPanel = [] ∧
    (Client.sendMessage clientClear).1.inputValue = "" :=
  ⟨by decide, by decide,
    ((c8_discard_on_switch_and_clear clientClear (by decide) (by decide)
      (by decide)).1 clientClear .command).1,
    (c8_discard_on_switch_and_clear clientClear (by decide) (by decide)
      (by decide)).2.2.1⟩

/-- C9: sendMessage issues no request and leaves the whole client state (in
particular the chat transcript and the mission panel) unchanged whenever the
trimmed input is empty, the client is disconnected, or a request is already
processing; and the send button is enabled exactly when the client is
connected, the trimmed input is non-empty, and no request is in flight. -/
theorem c9_send_guard_and_button (s : Client.ClientState)
    (h : Client.jsTrim s.inputValue = "" ∨ s.isConnected = false ∨
      s.isProcessing = true) :
    Client.sendMessage s = (s, none) ∧
    (Client.sendMessage s).1.chat = s.chat ∧
    (Client.sendMessage s).1.missionPanel = s.missionPanel ∧
    (Client.sendMessage s).2 = none ∧
    (∀ s2 : Client.ClientState,
      (Client.updateSendButton s2).sendEnabled = true ↔
        (s2.isConnected = true ∧ Client.jsTrim s2.inputValue ≠ "" ∧
          s2.isProcessing = false)) := by
  have hmain : Client.sendMessage s = (s, none) := by
    simp only [Client.sendMessage]
    rw [if_pos h]
  refine ⟨hmain, by rw [hmain], by rw [hmain], by rw [hmain], ?_⟩
  intro s2
  simp only [Client.updateSendButton, Bool.and_eq_true, decide_eq_true_eq,
    Bool.not_eq_true']
  rw [string_pos_iff]
  tauto

/-- Witness for C9: on the concrete whitespace-input state, sendMessage is a
no-op that fires no request. -/
theorem c9_send_guard_and_button_witness :
    (Client.jsTrim clientIdle.inputValue = "" ∨
      clientIdle.isConnected = false ∨ clientIdle.isProcessing = true) ∧
    Client.sendMessage clientIdle = (clientIdle, none) :=
  ⟨by decide, (c9_send_guard_and_button clientIdle (by decide)).1⟩

/-- C10: a connected, idle client whose trimmed lower-cased input is "show"
or "review" never forwards the input to /api/mission or /api/command —
sendMessage fires the POST /api/mission/show request and clears the input
field, in mission mode and in command mode alike. -/
theorem c10_show_review_intercept (s : Client.ClientState)
    (hc : s.isConnected = true) (hp : s.isProcessing = false)
    (h : Client.jsLower (Client.jsTrim s.inputValue) = "show" ∨
      Client.jsLower (Client.jsTrim s.inputValue) = "review") :
    (Client.sendMessage s).2 = some Client.NetRequest.missionShow ∧
    (Client.sendMessage s).1.inputValue = "" ∧
    (∀ u, (Client.sendMessage s).2 ≠ some (Client.NetRequest.missionPost u)) ∧
    (∀ u, (Client.sendMessage s).2 ≠ some (Client.NetRequest.commandPost u)) ∧
    (Client.sendMessage { s with currentMode := .mission }).2 =
      some Client.NetRequest.missionShow ∧
    (Client.sendMessage { s with currentMode := .command }).2 =
      some Client.NetRequest.missionShow := by
  have key : ∀ s2 : Client.ClientState, s2.isConnected = true →
      s2.isProcessing = false →
      (Client.jsLower (Client.jsTrim s2.inputValue) = "show" ∨
        Client.jsLower (Client.jsTrim s2.inputValue) = "review") →
      Client.sendMessage s2 =
        (Client.updateSendButton
          { { s2 with loading := true } with inputValue := "" },
          some Client.NetRequest.missionShow) := by
    intro s2 hc2 hp2 h2
    have hne : Client.jsTrim s2.inputValue ≠ "" := by
      intro he
      rw [he] at h2
      exact absurd h2 (by decide)
    have hguard : ¬(Client.jsTrim s2.inputValue = "" ∨
        s2.isConnected = false ∨ s2.isProcessing = true) := by
      simp [hne, hc2, hp2]
    simp only [Client.sendMessage]
    rw [if_neg hguard, if_pos h2]
  have hk := key s hc hp h
  refine ⟨by rw [hk], ?_, ?_, ?_, ?_, ?_⟩
  · rw [hk]
    simp [Client.updateSendButton]
  · intro u
    rw [hk]
    simp
  · intro u
    rw [hk]
    simp
  · rw [key { s with currentMode := .mission } hc hp h]
  · rw [key { s with currentMode := .command } hc hp h]

/-- Witness for C10: the concrete state whose input is "Show" fires the
mission-show request. -/
theorem c10_show_review_intercept_witness :
    clientShow.isConnected = true ∧ clientShow.isProcessing = false ∧
    (Client.jsLower (Client.jsTrim clientShow.inputValue) = "show" ∨
      Client.jsLower (Client.jsTrim clientShow.inputValue) = "review") ∧
    (Client.sendMessage clientShow).2 = some Client.NetRequest.missionShow :=
  ⟨by decide, by decide, by decide,
    (c10_show_review_intercept clientShow (by decide) (by decide)
      (by decide)).1⟩

end PX4
